import Mathlib

/-!
# The session protocol engine of the host application (`srcs/host_app/server_main.c`)

A shallow embedding of the command decoder, the command dispatcher, the chunked
upload, the download and the image synthesis of `server_main.c`, and of
`HW_Kernel::initialize_kernel` of `framework/host/hw_kernel.c`, with the
properties of the specification proved (or refuted) over it.

Conventions of the embedding

* A C string is a `List Char`; reading past the end of the list yields the
  terminating NUL.
* A C `int` is an `Int`; the arithmetic on the counters of the loops is reduced
  with `wrap32`, so that a theorem about a loop says in which range of sizes it
  holds.
* A loop whose end depends on those counters runs on `fuel`: it yields `none`
  when it has not ended within `fuel` iterations, and the theorems give the
  fuel that suffices.
* A block of memory is a function from the index of a cell to its contents; the
  contents of a cell that was never written are a parameter.
* The headers `protocol.h`, `kernel.h` and `utility.h` are not part of the
  sources: what they declare is a parameter of the definitions below.
-/

namespace ServerMain

/-! ## Constants of `server_main.c` -/

/-- The chunk size, `#define CHUNK_SIZE 8192`. -/
def CHUNK_SIZE : Nat := 8192

/-- The size of the message buffers, `#define MSG_LENGTH 128`. -/
def MSG_LENGTH : Nat := 128

/-- The token that acknowledges the payload, `#define ACK_DATA "ACK_DATA"`. -/
def ACK_DATA : String := "ACK_DATA"

/-- The token that acknowledges the size, `#define ACK_SIZE "ACK_SIZE"`. -/
def ACK_SIZE : String := "ACK_SIZE"

/-- Largest value of a C `int` (32 bits). -/
def INT_MAX : Int := 2147483647

/-- Reduction of an integer to the range of a 32-bit two's-complement `int`. -/
def wrap32 (x : Int) : Int := (x + 2147483648) % 4294967296 - 2147483648

/-- Conversion of an `int` or a `long` to the unsigned 64-bit type `size_t`: a
negative value becomes that value plus 2^64. -/
def size_t (x : Int) : Nat := (x % 18446744073709551616).toNat

/-! ## C strings -/

/-- The NUL character that ends a C string. -/
def NUL : Char := Char.ofNat 0

/-- Character `i` of a C string held in memory: past the stored characters
the terminating NUL is read. -/
def cchar (s : List Char) (i : Nat) : Char := s.getD i NUL

/-- The characters of a C string up to (not including) its first NUL. -/
def cstr (s : List Char) : List Char := s.takeWhile (fun c => c != NUL)

/-- The function `strlen`: the number of characters before the first NUL. -/
def strlen (s : List Char) : Nat := (cstr s).length

/-- The function `strncmp(s1, s2, n)`: it compares at most `n` characters and stops at the
first difference or at a NUL; the result is the difference of the first
differing characters, 0 when there is none. -/
def strncmp (s1 s2 : List Char) : Nat → Int
  | 0 => 0
  | n + 1 =>
    if cchar s1 0 ≠ cchar s2 0 then ((cchar s1 0).toNat : Int) - ((cchar s2 0).toNat : Int)
    else if cchar s1 0 = NUL then 0
    else strncmp s1.tail s2.tail n

/-! ## The command protocol (`protocol.h`) -/

/-- The contents of `protocol.h`, which `server_main.c` includes and which is
not among the sources: the seven command literals and their seven integer
tags. -/
structure Protocol where
  INIT_PLATFORM : List Char
  INIT_KERNEL : List Char
  START_KERNEL : List Char
  WRITE_DATA : List Char
  READ_DATA : List Char
  CLEAN_KERNEL : List Char
  GET_IMAGE : List Char
  INIT_PLATFORM_N : Int
  INIT_KERNEL_N : Int
  START_KERNEL_N : Int
  WRITE_DATA_N : Int
  READ_DATA_N : Int
  CLEAN_KERNEL_N : Int
  GET_IMAGE_N : Int

namespace Protocol

/-- The seven literals, in the order in which `get_command` tries them. -/
def literals (P : Protocol) : List (List Char) :=
  [P.INIT_PLATFORM, P.INIT_KERNEL, P.START_KERNEL, P.WRITE_DATA, P.READ_DATA,
   P.CLEAN_KERNEL, P.GET_IMAGE]

/-- The seven tags, in the same order. -/
def tags (P : Protocol) : List Int :=
  [P.INIT_PLATFORM_N, P.INIT_KERNEL_N, P.START_KERNEL_N, P.WRITE_DATA_N, P.READ_DATA_N,
   P.CLEAN_KERNEL_N, P.GET_IMAGE_N]

/-- The four `case` labels of the `switch` of `handle_command`, in the order of
the source. -/
def case_labels (P : Protocol) : List Int :=
  [P.INIT_PLATFORM_N, P.INIT_KERNEL_N, P.CLEAN_KERNEL_N, P.START_KERNEL_N]

/-- No literal contains a NUL (they are C string literals). -/
def nul_free (P : Protocol) : Prop := ∀ l ∈ P.literals, NUL ∉ l

/-- The literals are pairwise distinct and none is the beginning of another:
a literal begins another literal of the table only if it is that literal. -/
def distinct_literals (P : Protocol) : Prop :=
  P.literals.Pairwise (fun a b => ¬ a <+: b ∧ ¬ b <+: a)

end Protocol

/-- Modelled from the spec: `protocol.h` is not among the sources. The seven
literals are the command names the specification lists (platform-init,
kernel-init, start-kernel, write-data, read-data, clean-kernel, get-image);
the tags are numbered 0 to 6 in the order in which `get_command` tries the
literals. It serves as the concrete table of the examples. -/
def protocol_h : Protocol where
  INIT_PLATFORM := "platform-init".toList
  INIT_KERNEL := "kernel-init".toList
  START_KERNEL := "start-kernel".toList
  WRITE_DATA := "write-data".toList
  READ_DATA := "read-data".toList
  CLEAN_KERNEL := "clean-kernel".toList
  GET_IMAGE := "get-image".toList
  INIT_PLATFORM_N := 0
  INIT_KERNEL_N := 1
  START_KERNEL_N := 2
  WRITE_DATA_N := 3
  READ_DATA_N := 4
  CLEAN_KERNEL_N := 5
  GET_IMAGE_N := 6

/-- The function `get_command`: the number of the command whose literal begins the token,
the literals being tried in a fixed order; -1 when none does. -/
def get_command (P : Protocol) (command : List Char) : Int :=
  if strncmp command P.INIT_PLATFORM (strlen P.INIT_PLATFORM) = 0 then P.INIT_PLATFORM_N
  else if strncmp command P.INIT_KERNEL (strlen P.INIT_KERNEL) = 0 then P.INIT_KERNEL_N
  else if strncmp command P.START_KERNEL (strlen P.START_KERNEL) = 0 then P.START_KERNEL_N
  else if strncmp command P.WRITE_DATA (strlen P.WRITE_DATA) = 0 then P.WRITE_DATA_N
  else if strncmp command P.READ_DATA (strlen P.READ_DATA) = 0 then P.READ_DATA_N
  else if strncmp command P.CLEAN_KERNEL (strlen P.CLEAN_KERNEL) = 0 then P.CLEAN_KERNEL_N
  else if strncmp command P.GET_IMAGE (strlen P.GET_IMAGE) = 0 then P.GET_IMAGE_N
  else -1


/-! ## The Device Context and the command dispatcher -/

/-- The type `cl_data_types` of `kernel.h` (not among the sources), reduced to
what `server_main.c` reads and writes: the fields `status` and `initialized`;
the OpenCL handles of the structure are gathered in one opaque value. -/
structure cl_data_types where
  status : Int
  initialized : Bool
  handles : Nat
deriving DecidableEq, Repr

/-- The calls that `handle_command` makes into the Device library. -/
inductive DeviceCall
  | initialize_platform
  | initialize_kernel (xclbin kernel_name : String) (memory_size : Int)
  | clean_kernel
  | start_kernel
deriving DecidableEq, Repr

/-- The Device library (`kernel.h`, not among the sources): the four functions
that `handle_command` calls, each returning the Device Context it leaves. -/
structure Device where
  initialize_platform : Unit → cl_data_types
  initialize_kernel : cl_data_types → String → String → Int → cl_data_types
  clean_kernel : cl_data_types → cl_data_types
  start_kernel : cl_data_types → cl_data_types

/-- What one call of `handle_command` does: the Device Context it returns, the
text of `response` it sends on the socket (`none` when no branch wrote the
buffer, whose contents are then indeterminate) and the Device calls it made,
in order. -/
structure CommandResult where
  cl : cl_data_types
  response : Option String
  calls : List DeviceCall
deriving DecidableEq, Repr

/-- The function `handle_command`: the `switch` over the command number, its cases in the
order of the source. -/
def handle_command (P : Protocol) (dev : Device) (command : Int) (cl : cl_data_types)
    (xclbin kernel_name : String) (memory_size : Int) : CommandResult :=
  if command = P.INIT_PLATFORM_N then
    if !cl.initialized then
      let cl1 := dev.initialize_platform ()
      if cl1.status ≠ 0 then
        ⟨cl1, some "Error: could not initialize platform", [DeviceCall.initialize_platform]⟩
      else
        ⟨cl1, some "INFO: platform initialized", [DeviceCall.initialize_platform]⟩
    else
      ⟨cl, some "Error: Platform already initialized", []⟩
  else if command = P.INIT_KERNEL_N then
    if cl.status ≠ 0 then
      ⟨cl, some "Error: first initialize platform", []⟩
    else if !cl.initialized then
      let cl1 := dev.initialize_kernel cl xclbin kernel_name memory_size
      if cl1.status ≠ 0 then
        ⟨cl1, some "Error: Could not initialize the kernel",
          [DeviceCall.initialize_kernel xclbin kernel_name memory_size]⟩
      else
        ⟨{ cl1 with initialized := true }, some "INFO: kernel initialized",
          [DeviceCall.initialize_kernel xclbin kernel_name memory_size]⟩
    else
      ⟨cl, none, []⟩
  else if command = P.CLEAN_KERNEL_N then
    ⟨dev.clean_kernel cl, some "INFO: Kernel cleaned", [DeviceCall.clean_kernel]⟩
  else if command = P.START_KERNEL_N then
    ⟨dev.start_kernel cl, some "INFO: Started computation", [DeviceCall.start_kernel]⟩
  else
    ⟨cl, some "Command not recognized", []⟩

/-- The Device Context of `main` before the first command: `cl.status = 1`; the
other fields are not assigned, their values are given by the arguments. -/
def initial_cl (initialized : Bool) (handles : Nat) : cl_data_types :=
  { status := 1, initialized := initialized, handles := handles }

/-- A Device all of whose calls succeed: each returns status 0 and leaves the
flag `initialized` as `handle_command` needs it to go on to `kernel-init`
(cleared by `initialize_platform`, untouched by the others). -/
def device_ok : Device where
  initialize_platform := fun _ => { status := 0, initialized := false, handles := 1 }
  initialize_kernel := fun cl _ _ _ => { cl with status := 0, handles := 2 }
  clean_kernel := fun cl => { cl with status := 0, handles := 0 }
  start_kernel := fun cl => { cl with status := 0 }

/-- A Device all of whose calls fail: each returns the nonzero status 1. -/
def device_failing : Device where
  initialize_platform := fun _ => { status := 1, initialized := false, handles := 0 }
  initialize_kernel := fun cl _ _ _ => { cl with status := 1 }
  clean_kernel := fun cl => { cl with status := 1 }
  start_kernel := fun cl => { cl with status := 1 }

/-- A response is a descriptive error when its text begins with "Error". -/
def is_error_text (r : Option String) : Bool :=
  match r with
  | some s => "Error".toList.isPrefixOf s.toList
  | none => false

/-- A response reports success when its text begins with "INFO". -/
def is_info_text (r : Option String) : Bool :=
  match r with
  | some s => "INFO".toList.isPrefixOf s.toList
  | none => false

/-- The status response of one pass through the `switch` of `main`: the
write-data, read-data and get-image cases send their own text before the
transfer, every other command number goes to `handle_command`, which sends its
`response` buffer (`none` when no branch wrote the buffer). -/
def main_status_response (P : Protocol) (dev : Device) (command : Int) (cl : cl_data_types)
    (xclbin kernel_name : String) (memory_size : Int) : Option String :=
  if command = P.WRITE_DATA_N then some "INFO: Write Data"
  else if command = P.READ_DATA_N then some "INFO: Read Data"
  else if command = P.GET_IMAGE_N then some "INFO: Get Image"
  else (handle_command P dev command cl xclbin kernel_name memory_size).response

/-! ## The connection -/

/-- What one `send` transmits. -/
inductive Message (α : Type)
  | text (s : String)
  | int (v : Int)
  | payload (xs : List α)
deriving DecidableEq, Repr

/-- What the process does on the connection (and on its standard output), in
order: each `recv` with the value it returned, each `send` with what it was
given and the value it returned, each `printf`, and the `exit` of `perror`. -/
inductive Event (α : Type)
  | recv_size (ret : Int)
  | recv_chunk (to_read : Int) (ret : Int)
  | recv_ack (ret : Int)
  | send (m : Message α) (ret : Int)
  | printf (s : String)
  | exit
deriving DecidableEq, Repr

/-- The socket as the transfer functions use it, `σ` being the state of the
connection and `α` the type of the payload elements.
* `recv_size s`: `recv(socket, &data_size, sizeof(data_size), 0)`, giving the
  value returned and the integer stored (`none` when nothing was stored);
* `recv_chunk s n`: `recv(socket, data_chunks, n * sizeof *data_chunks, 0)`,
  giving the value returned and the elements stored at the start of the buffer;
* `recv_ack s`: `recv(socket, ack, sizeof(ack), 0)`, giving the value returned;
* `send s m`: `send(socket, ..., MSG_NOSIGNAL)`, giving the value returned.
A `recv` returns 0 when the client has disconnected. -/
structure Transport (σ α : Type) where
  recv_size : σ → Int × Option Int × σ
  recv_chunk : σ → Int → Int × List α × σ
  recv_ack : σ → Int × σ
  send : σ → Message α → Int × σ

/-- A client: the integers, the payload elements and the acknowledgement tokens
it still has to deliver. When a queue is empty the client has disconnected and
the corresponding `recv` returns 0. -/
structure Peer (α : Type) where
  sizes : List Int
  stream : List α
  acks : Nat
deriving DecidableEq, Repr

/-- The number of bytes of a message, with 4-byte integers and the payload
counted in elements. -/
def Message.size {α : Type} : Message α → Int
  | Message.text s => s.length
  | Message.int _ => 4
  | Message.payload xs => xs.length

/-- The connection to a client `Peer`: every `recv` of payload returns exactly
the number of elements requested as long as the client has that many left
(8 bytes an element), and every `send` accepts the whole message. -/
def Peer.transport (α : Type) : Transport (Peer α) α where
  recv_size := fun p =>
    match p.sizes with
    | [] => (0, none, p)
    | v :: rest => (4, some v, { p with sizes := rest })
  recv_chunk := fun p n =>
    if min n.toNat p.stream.length = 0 then (0, [], p)
    else (8 * (min n.toNat p.stream.length : Nat), p.stream.take n.toNat,
      { p with stream := p.stream.drop n.toNat })
  recv_ack := fun p =>
    if p.acks = 0 then (0, p) else (8, { p with acks := p.acks - 1 })
  send := fun p m => (m.size, p)

/-! ## Upload: `handle_write_data` -/

/-- The type `dynamic_array`: the array and its declared size. The array is the memory
`data` points to, cell by cell. -/
structure dynamic_array (α : Type) where
  data : Nat → α
  data_size : Int

/-- The values `handle_write_data` reads before anything assigned them: the
local `data_size` and the cells of the two blocks returned by `malloc`. -/
structure Indeterminate (α : Type) where
  data_size : Int
  data : Nat → α
  data_chunks : Nat → α

/-- The variables of the receive loop of `handle_write_data`. -/
structure WriteState (σ α : Type) where
  data_read : Int
  to_read : Int
  j : Int
  data : Nat → α
  data_chunks : Nat → α
  sock : σ
  trace : List (Event α)

/-- A buffer after `recv` stored the elements `xs` at its start. -/
def store {α : Type} (buf : Nat → α) (xs : List α) : Nat → α :=
  fun i => if h : i < xs.length then xs.get ⟨i, h⟩ else buf i

/-- The copy loop
`for (int i = 0; i < to_read; i++) data[i+(j*CHUNK_SIZE)] = data_chunks[i];`. -/
def copy_chunk {α : Type} (data data_chunks : Nat → α) (j to_read : Int) : Nat → α :=
  (List.range to_read.toNat).foldl
    (fun d (i : Nat) => Function.update d (wrap32 ((i : Int) + wrap32 (j * CHUNK_SIZE))).toNat
      (data_chunks i)) data

/-- One iteration of the receive loop. -/
def write_body {σ α : Type} (T : Transport σ α) (data_size : Int) (st : WriteState σ α) :
    WriteState σ α :=
  let data_read := wrap32 (st.data_read + CHUNK_SIZE)
  let to_read :=
    if data_read > data_size then wrap32 (data_size - wrap32 (data_read - st.to_read))
    else (CHUNK_SIZE : Int)
  let r := T.recv_chunk st.sock to_read
  let data_chunks := store st.data_chunks (r.2.1.take to_read.toNat)
  let data := copy_chunk st.data data_chunks st.j to_read
  { data_read := data_read
    to_read := to_read
    j := wrap32 (st.j + 1)
    data := data
    data_chunks := data_chunks
    sock := r.2.2
    trace := st.trace ++ [Event.recv_chunk to_read r.1] ++
      (if r.1 = 0 then [Event.printf "Data receive error: Client disconnected"] else []) }

/-- The loop `while(data_read < data_size) ...`, run for at most `fuel` iterations;
`none` when the loop has not ended by then. -/
def write_loop {σ α : Type} (T : Transport σ α) (data_size : Int) :
    Nat → WriteState σ α → Option (WriteState σ α)
  | 0, st => if st.data_read < data_size then none else some st
  | fuel + 1, st =>
    if st.data_read < data_size then write_loop T data_size fuel (write_body T data_size st)
    else some st

/-- What `handle_write_data` leaves: the array it returns, the connection and
what it did on it. -/
structure WriteResult (σ α : Type) where
  array_struct : dynamic_array α
  sock : σ
  trace : List (Event α)

/-- The function `handle_write_data`: receive the declared size, acknowledge it, receive the
payload chunk by chunk, acknowledge it. A `recv` that returns 0 only prints a
message. -/
def handle_write_data {σ α : Type} (T : Transport σ α) (ind : Indeterminate α) (fuel : Nat)
    (socket : σ) : Option (WriteResult σ α) :=
  let r := T.recv_size socket
  let data_size := (r.2.1.map wrap32).getD ind.data_size
  let trace0 := [Event.recv_size r.1] ++
    (if r.1 = 0 then [Event.printf "Data size receive error: Client disconnected"] else [])
  let s := T.send r.2.2 (Message.text ACK_SIZE)
  let trace1 := trace0 ++ [Event.send (Message.text ACK_SIZE) s.1]
  match write_loop T data_size fuel
      ⟨0, CHUNK_SIZE, 0, ind.data, ind.data_chunks, s.2, trace1⟩ with
  | none => none
  | some st =>
    let s2 := T.send st.sock (Message.text ACK_DATA)
    some ⟨⟨st.data, data_size⟩, s2.2, st.trace ++ [Event.send (Message.text ACK_DATA) s2.1]⟩

/-- What `handle_read_data` leaves: the value it returns (`none` when the
process was ended by `perror`), the connection and what it did on it. -/
structure ReadResult (σ α : Type) where
  ret : Option Int
  sock : σ
  trace : List (Event α)

/-- The function `handle_read_data` (the two overloads have the same body): wait for an
acknowledgement, send the size, wait for a second acknowledgement, send the
first `data_size` cells of `data` in one `send`, the length `data_size` being
converted to `size_t`. A `recv` that returns 0 only prints a message. -/
def handle_read_data {σ α : Type} (T : Transport σ α) (socket : σ) (data : Nat → α)
    (data_size : Int) : ReadResult σ α :=
  let r1 := T.recv_ack socket
  let trace1 := [Event.recv_ack r1.1] ++
    (if r1.1 = 0 then [Event.printf "Ack receive error: Client disconnected"] else [])
  let s1 := T.send r1.2 (Message.int data_size)
  let trace2 := trace1 ++ [Event.send (Message.int data_size) s1.1]
  let r2 := T.recv_ack s1.2
  let trace3 := trace2 ++ [Event.recv_ack r2.1] ++
    (if r2.1 = 0 then [Event.printf "Ack receive error: Client disconnected"] else [])
  let m := Message.payload ((List.range (size_t data_size)).map data)
  let s2 := T.send r2.2 m
  let trace4 := trace3 ++ [Event.send m s2.1]
  if s2.1 < 0 then ⟨none, s2.2, trace4 ++ [Event.printf "Send data failed", Event.exit]⟩
  else ⟨some 0, s2.2, trace4⟩

/-- The connection to a client `Peer` over a transport that accepts at most
`limit` bytes in one `send`: the value returned by `send` is the number of
bytes accepted, the rest of the message is not transmitted. -/
def Peer.short_transport (α : Type) (limit : Nat) : Transport (Peer α) α where
  recv_size := (Peer.transport α).recv_size
  recv_chunk := (Peer.transport α).recv_chunk
  recv_ack := (Peer.transport α).recv_ack
  send := fun p m => (min m.size (limit : Int), p)

/-- The `recv` and `send` calls of a trace, what is printed left out. -/
def io_events {α : Type} : List (Event α) → List (Event α)
  | [] => []
  | Event.printf _ :: es => io_events es
  | Event.exit :: es => io_events es
  | e :: es => e :: io_events es

/-- The number of payload bytes the transport accepted: the sum of the values
returned by the `send` calls that were given payload (a negative value, an
error, counting for nothing). -/
def payload_accepted {α : Type} : List (Event α) → Int
  | [] => 0
  | Event.send (Message.payload _) ret :: es => max ret 0 + payload_accepted es
  | _ :: es => payload_accepted es

/-! ## Image synthesis: the pixel loop of `handle_get_image` -/

/-- Reduction of an integer to the range of a 64-bit two's-complement `long`. -/
def wrap64 (x : Int) : Int :=
  (x + 9223372036854775808) % 18446744073709551616 - 9223372036854775808

/-- Bits `lo` to `hi - 1` of the 32-bit two's-complement pattern of the word `w`. -/
def bit_field (w : Int) (lo hi : Nat) : Nat :=
  ((w % 4294967296).toNat / 2 ^ lo) % 2 ^ (hi - lo)

/-- Modelled from the spec: `extract_bits` is declared in `utility.h`, which is
not among the sources. The specification reads `extract_bits(w, 6, 0)` as the
bits 0 to 5 of `w` and `extract_bits(w, 26, 6)` as the bits 6 to 25 of `w`:
`extract_bits(value, hi, lo)` is the field of the bits `lo` to `hi - 1`. -/
def extract_bits (value : Int) (hi lo : Int) : Nat := bit_field value lo.toNat hi.toNat

/-- The variables of the pixel loop of `handle_get_image`. -/
structure ImageState where
  i : Int
  j : Int
  image : Nat → Nat

/-- One iteration of the pixel loop: the two bit fields of the word
`data_array[j]`, then the three bytes of the pixel. The function `extract`
(for `extract_bits`) and the table `color_scheme` (`color_scheme g t k` standing for
`color_scheme[g].color_transition[t].color[k]`) are those of the absent
headers. -/
def image_body (extract : Int → Int → Int → Nat) (color_scheme : Nat → Nat → Nat → Nat)
    (max_depth : Int) (data_array : Nat → Int) (st : ImageState) : ImageState :=
  let transition := extract (data_array st.j.toNat) 6 0
  let group := extract (data_array st.j.toNat) 26 6
  let image := (List.range 3).foldl
    (fun im (k : Nat) => Function.update im (wrap32 (st.i + (k : Int))).toNat
      (if data_array st.j.toNat = max_depth then 0
       else color_scheme (group % 8) transition k)) st.image
  { i := wrap32 (st.i + 3), j := wrap32 (st.j + 1), image := image }

/-- The loop `for(int i = 0; i < input.width * input.height * 3; i+=3) ...`,
run for at most `fuel` iterations; `none` when the loop has not ended by then. -/
def image_loop (extract : Int → Int → Int → Nat) (color_scheme : Nat → Nat → Nat → Nat)
    (width height max_depth : Int) (data_array : Nat → Int) :
    Nat → ImageState → Option ImageState
  | 0, st => if st.i < wrap64 (wrap64 (width * height) * 3) then none else some st
  | fuel + 1, st =>
    if st.i < wrap64 (wrap64 (width * height) * 3) then
      image_loop extract color_scheme width height max_depth data_array fuel
        (image_body extract color_scheme max_depth data_array st)
    else some st

/-- The pixel buffer `image`: the size given to `malloc` (a `size_t`) and the
bytes. -/
structure pixel_buffer where
  size : Nat
  bytes : Nat → Nat

/-- The part of `handle_get_image` that builds the pixels of the image from the
words read back from the kernel: `malloc` of `width * height * 3` bytes (the
`long` product converted to `size_t`; the contents `junk` are indeterminate),
then the pixel loop. -/
def handle_get_image_pixels (extract : Int → Int → Int → Nat)
    (color_scheme : Nat → Nat → Nat → Nat) (width height max_depth : Int)
    (data_array : Nat → Int) (junk : Nat → Nat) (fuel : Nat) : Option pixel_buffer :=
  (image_loop extract color_scheme width height max_depth data_array fuel
      ⟨0, 0, junk⟩).map
    (fun st => ⟨size_t (wrap64 (wrap64 (width * height) * 3)), st.image⟩)

/-- The reference definition of the specification: the component `k` of the
pixel of the word `w` is 0 when `w` is `maxDepth`, and otherwise the component
`k` of `Palette[group mod 8].colorAt(transition)`, with `transition` the bits 0
to 5 of `w` and `group` the bits 6 to 25 of `w`. -/
def spec_pixel (palette : Nat → Nat → Nat → Nat) (maxDepth : Int) (w : Int) (k : Nat) : Nat :=
  if w = maxDepth then 0 else palette (bit_field w 6 26 % 8) (bit_field w 0 6) k

/-- A palette for the examples: the component `k` of the color of transition `t`
in group `g` is `(64 g + 3 t + k) mod 256`. -/
def example_palette (g t k : Nat) : Nat := (64 * g + 3 * t + k) % 256

/-- The four words of the example of the specification. -/
def example_words (i : Nat) : Int := [100, 5, 70, 6].getD i 0

/-! ## The Device library: `HW_Kernel::initialize_kernel` (`framework/host/hw_kernel.c`) -/

/-- The value `CL_SUCCESS` of the OpenCL headers. -/
def CL_SUCCESS : Int := 0

/-- The value `EXIT_FAILURE` of the C library. -/
def EXIT_FAILURE : Int := 1

/-- What the C library reports for the binary file: whether `fopen` opened it,
the size given by `ftell`, and the number of bytes `fread` delivered. -/
structure FileOutcome where
  opened : Bool
  size : Nat
  read : Nat
deriving DecidableEq, Repr

/-- The function `HW_Kernel::load_file_to_memory`: -1 when the file cannot be
opened, -2 when it cannot be read whole, its size (an `uint` returned as `int`)
otherwise. -/
def load_file_to_memory (f : FileOutcome) : Int :=
  if !f.opened then -1
  else if f.size % 4294967296 ≠ f.read then -2
  else wrap32 ((f.size % 4294967296 : Nat) : Int)

/-- The outcomes of the steps of `initialize_kernel`, as the C library and the
OpenCL runtime report them: the binary file; for `clCreateProgramWithBinary`
whether the handle returned is not null, the error code, and the value it
stores through its `binary_status` argument (`none` when it stores nothing);
the error code of `clBuildProgram` and the build log; for `clCreateKernel` and
for each of the two `clCreateBuffer` calls whether the handle is not null and
the error code. -/
structure KernelSteps where
  file : FileOutcome
  program : Bool
  program_err : Int
  binary_status : Option Int
  build_err : Int
  build_log : String
  kernel : Bool
  kernel_err : Int
  read_mem : Bool
  read_err : Int
  write_mem : Bool
  write_err : Int
deriving DecidableEq, Repr

/-- The part of a `HW_Kernel` object that `initialize_kernel` reports through:
the field `status`, and what was printed (line ends left out). -/
structure HW_Kernel where
  status : Int
  out : List String
deriving DecidableEq, Repr

/-- The function `HW_Kernel::perror`: print the message and set `status` to
`EXIT_FAILURE`. -/
def HW_Kernel.perror (self : HW_Kernel) (msg : String) : HW_Kernel :=
  { status := EXIT_FAILURE, out := self.out ++ [msg] }

/-- The function `HW_Kernel::initialize_kernel`, its steps in the order of the
source. A failed load, program creation, kernel creation or buffer allocation
calls `perror` and returns; a failed build prints, sets `status` to
`EXIT_FAILURE` and goes on; the last statement is `status = 0`. The field
`status` is also the `binary_status` argument of `clCreateProgramWithBinary`. -/
def HW_Kernel.initialize_kernel (self : HW_Kernel) (steps : KernelSteps)
    (xclbin _kernel_name : String) (_memory_size : Int) : HW_Kernel :=
  let s0 : HW_Kernel := { self with out := self.out ++ ["INFO: loading xclbin " ++ xclbin] }
  if load_file_to_memory steps.file < 0 then
    s0.perror "Error: Failed to load kernel from the xclbin provided Test failed"
  else
    let s1 : HW_Kernel := { s0 with status := steps.binary_status.getD s0.status }
    if !steps.program || steps.program_err ≠ CL_SUCCESS then
      s1.perror "Error: Failed to create a compute program binary! Test failed"
    else
      let s2 : HW_Kernel :=
        if steps.build_err ≠ CL_SUCCESS then
          { status := EXIT_FAILURE
            out := s1.out ++ ["Error: Failed to build program executable!", steps.build_log,
              "Test failed"] }
        else s1
      if !steps.kernel || steps.kernel_err ≠ CL_SUCCESS then
        s2.perror "Error: Failed to create a compute kernel! Test failed"
      else
        let s3 : HW_Kernel :=
          if steps.read_err ≠ CL_SUCCESS then
            { s2 with out := s2.out ++ ["Return code for clCreateBuffer flags=2"] }
          else s2
        let s4 : HW_Kernel :=
          if steps.write_err ≠ CL_SUCCESS then
            { s3 with out := s3.out ++ ["Return code for clCreateBuffer flags=2"] }
          else s3
        if !steps.write_mem || !steps.read_mem then
          s4.perror "Error: Failed to allocate device memory! Test failed"
        else
          { s4 with status := 0 }

/-- Every step of `initialize_kernel` succeeded: the file was loaded, the
program was created, the program was built, the kernel was created, and the two
buffers were allocated. -/
def KernelSteps.all_succeeded (steps : KernelSteps) : Prop :=
  0 ≤ load_file_to_memory steps.file ∧
  (steps.program = true ∧ steps.program_err = CL_SUCCESS) ∧
  steps.build_err = CL_SUCCESS ∧
  (steps.kernel = true ∧ steps.kernel_err = CL_SUCCESS) ∧
  (steps.read_mem = true ∧ steps.read_err = CL_SUCCESS) ∧
  (steps.write_mem = true ∧ steps.write_err = CL_SUCCESS)

/-- The outcomes in which every step succeeds. -/
def steps_ok : KernelSteps where
  file := ⟨true, 4096, 4096⟩
  program := true
  program_err := 0
  binary_status := some 0
  build_err := 0
  build_log := ""
  kernel := true
  kernel_err := 0
  read_mem := true
  read_err := 0
  write_mem := true
  write_err := 0

/-- The outcomes in which the program build fails (`clBuildProgram` returns
-11, `CL_BUILD_PROGRAM_FAILURE`) and every other step succeeds. -/
def steps_build_fails : KernelSteps :=
  { steps_ok with build_err := -11, build_log := "build log" }

/-! ## Properties of the decoder -/

theorem char_eq_of_toNat_eq {c d : Char} (h : c.toNat = d.toNat) : c = d := by
  rw [← Char.ofNat_toNat c, ← Char.ofNat_toNat d, h]

theorem cstr_of_nul_free {l : List Char} (h : NUL ∉ l) : cstr l = l := by
  unfold cstr
  rw [List.takeWhile_eq_self_iff]
  intro c hc
  have : c ≠ NUL := fun e => h (e ▸ hc)
  simpa using this

/-- The call `strncmp(a, b, strlen(b))` is 0 exactly when the characters of `b` begin `a`. -/
theorem strncmp_strlen_eq_zero_iff (b : List Char) :
    ∀ a : List Char, strncmp a b (strlen b) = 0 ↔ cstr b <+: a := by
  induction b with
  | nil => intro a; simp [strlen, cstr, strncmp]
  | cons c b ih =>
    intro a
    by_cases hc : c = NUL
    · simp [strlen, cstr, strncmp, hc]
    · have hcs : cstr (c :: b) = c :: cstr b := by simp [cstr, hc]
      have hlen : strlen (c :: b) = strlen b + 1 := by simp [strlen, hcs]
      rw [hlen, hcs]
      cases a with
      | nil =>
        have h0 : cchar [] 0 = NUL := rfl
        have h1 : cchar (c :: b) 0 = c := rfl
        have hne : NUL ≠ c := fun e => hc e.symm
        simp only [strncmp, h0, h1, if_pos hne, ne_eq, not_false_eq_true]
        constructor
        · intro h
          exfalso
          apply hc
          apply char_eq_of_toNat_eq
          have : (NUL.toNat : Int) = c.toNat := by linarith
          exact_mod_cast this.symm
        · intro h
          simp at h
      | cons d a =>
        have h0 : cchar (d :: a) 0 = d := rfl
        have h1 : cchar (c :: b) 0 = c := rfl
        simp only [strncmp, h0, h1, List.tail_cons]
        by_cases hdc : d = c
        · subst hdc
          simp only [ne_eq, not_true_eq_false, if_false, if_neg hc]
          rw [ih a, List.prefix_cons_inj]
        · simp only [ne_eq, hdc, not_false_eq_true, if_true]
          constructor
          · intro h
            exfalso
            apply hdc
            apply char_eq_of_toNat_eq
            have : (d.toNat : Int) = c.toNat := by linarith
            exact_mod_cast this
          · intro h
            rw [List.cons_prefix_cons] at h
            exact absurd h.1.symm hdc


theorem strncmp_literal_eq_zero_iff {l : List Char} (h : NUL ∉ l) (a : List Char) :
    strncmp a l (strlen l) = 0 ↔ l <+: a := by
  rw [strncmp_strlen_eq_zero_iff, cstr_of_nul_free h]

/-- C1: with literals that contain no NUL, are pairwise distinct and of which
none begins another, `get_command` applied to a token that is exactly one of
the seven literals returns the tag of that literal. -/
theorem get_command_literal (P : Protocol) (hn : P.nul_free) (hd : P.distinct_literals) :
    get_command P P.INIT_PLATFORM = P.INIT_PLATFORM_N ∧
    get_command P P.INIT_KERNEL = P.INIT_KERNEL_N ∧
    get_command P P.START_KERNEL = P.START_KERNEL_N ∧
    get_command P P.WRITE_DATA = P.WRITE_DATA_N ∧
    get_command P P.READ_DATA = P.READ_DATA_N ∧
    get_command P P.CLEAN_KERNEL = P.CLEAN_KERNEL_N ∧
    get_command P P.GET_IMAGE = P.GET_IMAGE_N := by
  simp only [Protocol.nul_free, Protocol.literals, List.mem_cons, List.mem_singleton,
    List.not_mem_nil, or_false, forall_eq_or_imp, forall_eq] at hn
  obtain ⟨n1, n2, n3, n4, n5, n6, n7⟩ := hn
  simp only [Protocol.distinct_literals, Protocol.literals, List.pairwise_cons,
    List.mem_cons, List.mem_singleton, List.not_mem_nil, forall_eq_or_imp, forall_eq,
    or_false] at hd
  simp only [get_command, strncmp_literal_eq_zero_iff n1, strncmp_literal_eq_zero_iff n2,
    strncmp_literal_eq_zero_iff n3, strncmp_literal_eq_zero_iff n4,
    strncmp_literal_eq_zero_iff n5, strncmp_literal_eq_zero_iff n6,
    strncmp_literal_eq_zero_iff n7]
  simp [hd, List.prefix_refl]

theorem protocol_h_nul_free : protocol_h.nul_free := by
  simp only [Protocol.nul_free, Protocol.literals, protocol_h]
  decide

theorem protocol_h_distinct_literals : protocol_h.distinct_literals := by
  simp only [Protocol.distinct_literals, Protocol.literals, protocol_h]
  decide

/-- Witness of C1: the table `protocol_h` meets the hypotheses, and each of its
literals is decoded to its tag. -/
theorem get_command_literal_witness :
    protocol_h.nul_free ∧ protocol_h.distinct_literals ∧
    get_command protocol_h "platform-init".toList = 0 ∧
    get_command protocol_h "get-image".toList = 6 := by
  have h := get_command_literal protocol_h protocol_h_nul_free protocol_h_distinct_literals
  exact ⟨protocol_h_nul_free, protocol_h_distinct_literals, h.1, h.2.2.2.2.2.2⟩

/-- C2 (as stated, refuted): a token longer than a literal that begins with the
literal is not one of the seven literals, yet `get_command` returns the tag of
the literal (0 in the table `protocol_h`), not -1. -/
theorem get_command_longer_token_recognized :
    "platform-init-again".toList ∉ protocol_h.literals ∧
    get_command protocol_h "platform-init-again".toList = protocol_h.INIT_PLATFORM_N ∧
    get_command protocol_h "platform-init-again".toList ≠ -1 := by
  decide

/-- C2 (amended): a token that does not begin with any of the seven literals
(the empty token and a token shorter than the literals included) is decoded to
-1. -/
theorem get_command_unrecognized (P : Protocol) (command : List Char)
    (h : ∀ l ∈ P.literals, ¬ cstr l <+: command) : get_command P command = -1 := by
  simp only [Protocol.literals, List.mem_cons, List.mem_singleton, List.not_mem_nil,
    or_false, forall_eq_or_imp, forall_eq] at h
  simp [get_command, strncmp_strlen_eq_zero_iff, h]

/-- A token that begins with one of the literals is decoded to one of the tags. -/
theorem get_command_of_begins (P : Protocol) (command : List Char)
    (h : ∃ l ∈ P.literals, cstr l <+: command) : get_command P command ∈ P.tags := by
  simp only [Protocol.literals, List.mem_cons, List.mem_singleton, List.not_mem_nil,
    or_false, exists_eq_or_imp, exists_eq_left] at h
  simp only [get_command, strncmp_strlen_eq_zero_iff, Protocol.tags]
  split_ifs <;> simp_all

/-- Witness of C2 (amended): the empty token and the token "platform", shorter
than the literal it begins like, are decoded to -1. -/
theorem get_command_unrecognized_witness :
    (∀ l ∈ protocol_h.literals, ¬ cstr l <+: "platform".toList) ∧
    get_command protocol_h "platform".toList = -1 ∧
    get_command protocol_h [] = -1 :=
  ⟨by decide, get_command_unrecognized protocol_h "platform".toList (by decide),
   get_command_unrecognized protocol_h [] (by decide)⟩


/-! ## Properties of the command dispatcher -/

/-- C5: while the Device Context has a nonzero status (as `main` sets it at
process start), `handle_command` with the kernel-init command makes no Device
call, answers "Error: first initialize platform" and returns the Device Context
it was given. -/
theorem kernel_init_needs_platform (P : Protocol) (dev : Device) (cl : cl_data_types)
    (xclbin kernel_name : String) (memory_size : Int)
    (htag : P.INIT_KERNEL_N ≠ P.INIT_PLATFORM_N) (hs : cl.status ≠ 0) :
    handle_command P dev P.INIT_KERNEL_N cl xclbin kernel_name memory_size =
      ⟨cl, some "Error: first initialize platform", []⟩ := by
  simp [handle_command, htag, hs]

/-- Witness of C5: kernel-init on the initial Device Context of `main`. -/
theorem kernel_init_needs_platform_witness :
    (initial_cl false 0).status ≠ 0 ∧
    handle_command protocol_h device_ok protocol_h.INIT_KERNEL_N (initial_cl false 0)
        "binary.xclbin" "kernel" 64 =
      ⟨initial_cl false 0, some "Error: first initialize platform", []⟩ :=
  ⟨by decide, kernel_init_needs_platform protocol_h device_ok (initial_cl false 0)
    "binary.xclbin" "kernel" 64 (by decide) (by decide)⟩

/-- C6 (the code at the failing input): platform-init dispatched twice from the
initial Device Context, the Device succeeding. The second dispatch calls
`initialize_platform` again and answers the success text, not an error. -/
theorem platform_init_twice_calls_device_again :
    (handle_command protocol_h device_ok protocol_h.INIT_PLATFORM_N (initial_cl false 0)
        "binary.xclbin" "kernel" 64).cl.status = 0 ∧
    (handle_command protocol_h device_ok protocol_h.INIT_PLATFORM_N (initial_cl false 0)
        "binary.xclbin" "kernel" 64).calls = [DeviceCall.initialize_platform] ∧
    (handle_command protocol_h device_ok protocol_h.INIT_PLATFORM_N
        (handle_command protocol_h device_ok protocol_h.INIT_PLATFORM_N (initial_cl false 0)
          "binary.xclbin" "kernel" 64).cl
        "binary.xclbin" "kernel" 64).calls = [DeviceCall.initialize_platform] ∧
    (handle_command protocol_h device_ok protocol_h.INIT_PLATFORM_N
        (handle_command protocol_h device_ok protocol_h.INIT_PLATFORM_N (initial_cl false 0)
          "binary.xclbin" "kernel" 64).cl
        "binary.xclbin" "kernel" 64).response = some "INFO: platform initialized" := by
  decide

/-- The rejection of platform-init is decided by the flag `initialized` alone:
whenever the flag is clear, whatever the status, the Device is called. -/
theorem platform_init_calls_device_when_flag_clear (P : Protocol) (dev : Device)
    (cl : cl_data_types) (xclbin kernel_name : String) (memory_size : Int)
    (hf : cl.initialized = false) :
    (handle_command P dev P.INIT_PLATFORM_N cl xclbin kernel_name memory_size).calls =
      [DeviceCall.initialize_platform] := by
  by_cases hs : (dev.initialize_platform ()).status = 0 <;> simp [handle_command, hf, hs]

/-- Whatever the Device does, a context on which platform-init is rejected is a
context on which kernel-init makes no Device call: the rejection of a second
platform-init and the initialization of the kernel exclude each other. -/
theorem platform_rejection_blocks_kernel_init (P : Protocol) (dev : Device)
    (cl : cl_data_types) (xclbin kernel_name : String) (memory_size : Int)
    (htag : P.INIT_KERNEL_N ≠ P.INIT_PLATFORM_N)
    (h : (handle_command P dev P.INIT_PLATFORM_N cl xclbin kernel_name memory_size).calls = []) :
    (handle_command P dev P.INIT_KERNEL_N cl xclbin kernel_name memory_size).calls = [] := by
  have hi : cl.initialized = true := by
    by_contra hne
    have hf : cl.initialized = false := by simpa using hne
    rw [platform_init_calls_device_when_flag_clear P dev cl xclbin kernel_name memory_size hf]
      at h
    simp at h
  by_cases hs : cl.status = 0 <;> simp [handle_command, htag, hs, hi]

/-- C7 (the code at the failing input): start-kernel dispatched on the initial,
uninitialized Device Context. The `START_KERNEL` case has no guard: it calls
the Device's `start_kernel`, and the Device Context returned is the one that
call produced, not the one given. -/
theorem start_kernel_uninitialized_calls_device :
    (handle_command protocol_h device_ok protocol_h.START_KERNEL_N (initial_cl false 0)
        "binary.xclbin" "kernel" 64).calls = [DeviceCall.start_kernel] ∧
    (handle_command protocol_h device_ok protocol_h.START_KERNEL_N (initial_cl false 0)
        "binary.xclbin" "kernel" 64).cl ≠ initial_cl false 0 := by
  decide

/-- The guards of `handle_command`. Kernel-init dispatched while the
status is nonzero or while the context is marked initialized, and platform-init
dispatched while the context is marked initialized, make no Device call and
return the Device Context unchanged. Start-kernel is not gated: in every state
it calls the Device and returns the context the Device leaves. -/
theorem gated_commands_leave_device_alone (P : Protocol) (dev : Device) (cl : cl_data_types)
    (xclbin kernel_name : String) (memory_size : Int) (hlabels : P.case_labels.Nodup) :
    ((cl.status ≠ 0 ∨ cl.initialized = true) →
      (handle_command P dev P.INIT_KERNEL_N cl xclbin kernel_name memory_size).calls = [] ∧
      (handle_command P dev P.INIT_KERNEL_N cl xclbin kernel_name memory_size).cl = cl) ∧
    (cl.initialized = true →
      (handle_command P dev P.INIT_PLATFORM_N cl xclbin kernel_name memory_size).calls = [] ∧
      (handle_command P dev P.INIT_PLATFORM_N cl xclbin kernel_name memory_size).cl = cl) ∧
    ((handle_command P dev P.START_KERNEL_N cl xclbin kernel_name memory_size).calls =
        [DeviceCall.start_kernel] ∧
      (handle_command P dev P.START_KERNEL_N cl xclbin kernel_name memory_size).cl =
        dev.start_kernel cl) := by
  simp only [Protocol.case_labels, List.nodup_cons, List.mem_cons, List.mem_singleton,
    List.not_mem_nil, not_or, or_false, not_false_eq_true, List.nodup_nil, and_true] at hlabels
  obtain ⟨⟨h12, h13, h14⟩, ⟨h23, h24⟩, h34⟩ := hlabels
  refine ⟨?_, ?_, ?_⟩
  · intro h
    by_cases hs : cl.status = 0
    · have hi : cl.initialized = true := by
        rcases h with h | h
        · exact absurd hs h
        · exact h
      simp [handle_command, Ne.symm h12, hs, hi]
    · simp [handle_command, Ne.symm h12, hs]
  · intro hi
    simp [handle_command, hi]
  · simp [handle_command, Ne.symm h14, Ne.symm h24, Ne.symm h34]

/-- The guards of `handle_command` at work: kernel-init on the initial context, kernel-init and
platform-init on a context already marked initialized. -/
theorem gated_commands_leave_device_alone_witness :
    protocol_h.case_labels.Nodup ∧
    (handle_command protocol_h device_ok protocol_h.INIT_KERNEL_N (initial_cl false 0)
        "binary.xclbin" "kernel" 64).calls = [] ∧
    (handle_command protocol_h device_ok protocol_h.INIT_KERNEL_N ⟨0, true, 2⟩
        "binary.xclbin" "kernel" 64).cl = ⟨0, true, 2⟩ ∧
    (handle_command protocol_h device_ok protocol_h.INIT_PLATFORM_N ⟨0, true, 2⟩
        "binary.xclbin" "kernel" 64).calls = [] :=
  ⟨by decide,
   ((gated_commands_leave_device_alone protocol_h device_ok (initial_cl false 0)
      "binary.xclbin" "kernel" 64 (by decide)).1 (Or.inl (by decide))).1,
   ((gated_commands_leave_device_alone protocol_h device_ok ⟨0, true, 2⟩
      "binary.xclbin" "kernel" 64 (by decide)).1 (Or.inr rfl)).2,
   ((gated_commands_leave_device_alone protocol_h device_ok ⟨0, true, 2⟩
      "binary.xclbin" "kernel" 64 (by decide)).2.1 rfl).1⟩

/-- C9 (the code at the failing input): start-kernel and clean-kernel dispatched
on a kernel-ready context with a Device whose calls return the nonzero status 1.
The status returned is nonzero, yet the response is the "INFO: ..." success
text and not an error text. -/
theorem start_and_clean_failure_answered_info :
    (handle_command protocol_h device_failing protocol_h.START_KERNEL_N ⟨0, true, 2⟩
        "binary.xclbin" "kernel" 64).cl.status = 1 ∧
    (handle_command protocol_h device_failing protocol_h.START_KERNEL_N ⟨0, true, 2⟩
        "binary.xclbin" "kernel" 64).response = some "INFO: Started computation" ∧
    is_error_text (handle_command protocol_h device_failing protocol_h.START_KERNEL_N
        ⟨0, true, 2⟩ "binary.xclbin" "kernel" 64).response = false ∧
    (handle_command protocol_h device_failing protocol_h.CLEAN_KERNEL_N ⟨0, true, 2⟩
        "binary.xclbin" "kernel" 64).cl.status = 1 ∧
    (handle_command protocol_h device_failing protocol_h.CLEAN_KERNEL_N ⟨0, true, 2⟩
        "binary.xclbin" "kernel" 64).response = some "INFO: Kernel cleaned" ∧
    is_error_text (handle_command protocol_h device_failing protocol_h.CLEAN_KERNEL_N
        ⟨0, true, 2⟩ "binary.xclbin" "kernel" 64).response = false ∧
    is_info_text (handle_command protocol_h device_failing protocol_h.START_KERNEL_N
        ⟨0, true, 2⟩ "binary.xclbin" "kernel" 64).response = true ∧
    is_info_text (handle_command protocol_h device_failing protocol_h.CLEAN_KERNEL_N
        ⟨0, true, 2⟩ "binary.xclbin" "kernel" 64).response = true := by
  decide

/-- The two initialization commands do report a Device failure: when the Device
call they make returns a nonzero status, the response is an error text. -/
theorem init_failure_answered_error (P : Protocol) (dev : Device) (cl : cl_data_types)
    (xclbin kernel_name : String) (memory_size : Int)
    (htag : P.INIT_KERNEL_N ≠ P.INIT_PLATFORM_N) :
    (cl.initialized = false → (dev.initialize_platform ()).status ≠ 0 →
      (handle_command P dev P.INIT_PLATFORM_N cl xclbin kernel_name memory_size).response =
        some "Error: could not initialize platform") ∧
    (cl.status = 0 → cl.initialized = false →
      (dev.initialize_kernel cl xclbin kernel_name memory_size).status ≠ 0 →
      (handle_command P dev P.INIT_KERNEL_N cl xclbin kernel_name memory_size).response =
        some "Error: Could not initialize the kernel") := by
  refine ⟨?_, ?_⟩
  · intro hi hs
    simp [handle_command, hi, hs]
  · intro hs hi hf
    simp [handle_command, htag, hs, hi, hf]


/-! ## Properties of the upload -/

theorem foldl_update_range {α : Type} (f : Nat → Nat) (g : Nat → α) (base : Nat) :
    ∀ (n : Nat) (data : Nat → α), (∀ i, i < n → f i = base + i) →
      ∀ x, ((List.range n).foldl (fun d i => Function.update d (f i) (g i)) data) x =
        if base ≤ x ∧ x < base + n then g (x - base) else data x := by
  intro n
  induction n with
  | zero =>
    intro data _ x
    have : ¬ (base ≤ x ∧ x < base + 0) := by omega
    rw [if_neg this]
    rfl
  | succ n ih =>
    intro data hf x
    rw [List.range_succ, List.foldl_append]
    simp only [List.foldl_cons, List.foldl_nil]
    rw [hf n (Nat.lt_succ_self n)]
    by_cases hx : x = base + n
    · subst hx
      have : base ≤ base + n ∧ base + n < base + (n + 1) := by omega
      simp [this]
    · rw [Function.update_noteq hx, ih data (fun i hi => hf i (Nat.lt_succ_of_lt hi)) x]
      by_cases h1 : base ≤ x ∧ x < base + n
      · have h2 : base ≤ x ∧ x < base + (n + 1) := by omega
        rw [if_pos h1, if_pos h2]
      · have h2 : ¬ (base ≤ x ∧ x < base + (n + 1)) := by omega
        rw [if_neg h1, if_neg h2]

/-- C10 (the code at the failing inputs): a receive that returns 0 does not end
the transfer.
* Upload, the client gone after it declared one element: the chunk receive
  returns 0, a message is printed, and `ACK_DATA` is sent all the same.
* Upload, the client gone before the size: the size receive returns 0, a
  message is printed, `ACK_SIZE` and `ACK_DATA` are sent (the size left
  indeterminate being 0).
* Download, the client gone: the first receive returns 0, a message is printed,
  the size is sent, a second receive is made, and the payload is sent. -/
theorem zero_length_receive_does_not_abandon :
    (handle_write_data (Peer.transport Nat) ⟨0, fun _ => 0, fun _ => 0⟩ 1
        ⟨[1], [], 0⟩).map (fun r => r.trace) =
      some [Event.recv_size 4, Event.send (Message.text "ACK_SIZE") 8,
        Event.recv_chunk 1 0, Event.printf "Data receive error: Client disconnected",
        Event.send (Message.text "ACK_DATA") 8] ∧
    (handle_write_data (Peer.transport Nat) ⟨0, fun _ => 0, fun _ => 0⟩ 1
        ⟨[], [], 0⟩).map (fun r => r.trace) =
      some [Event.recv_size 0, Event.printf "Data size receive error: Client disconnected",
        Event.send (Message.text "ACK_SIZE") 8, Event.send (Message.text "ACK_DATA") 8] ∧
    (handle_read_data (Peer.transport Nat) ⟨[], [], 0⟩ (fun i => i + 10) 3).trace =
      [Event.recv_ack 0, Event.printf "Ack receive error: Client disconnected",
        Event.send (Message.int 3) 4,
        Event.recv_ack 0, Event.printf "Ack receive error: Client disconnected",
        Event.send (Message.payload [10, 11, 12]) 3] ∧
    (handle_read_data (Peer.transport Nat) ⟨[], [], 0⟩ (fun i => i + 10) 3).ret = some 0 := by
  decide

/-! ## Properties of the image synthesis -/

theorem image_loop_exit (extract : Int → Int → Int → Nat)
    (color_scheme : Nat → Nat → Nat → Nat) (width height max_depth : Int)
    (data_array : Nat → Int) (fuel : Nat) (st : ImageState)
    (h : ¬ st.i < wrap64 (wrap64 (width * height) * 3)) :
    image_loop extract color_scheme width height max_depth data_array fuel st = some st := by
  cases fuel <;> simp [image_loop, h]

/-- One iteration of the pixel loop at pixel `m`, the counters within the range
of `int`: the counters advance and the three bytes of pixel `m` are written,
the others unchanged. -/
theorem image_body_apply (extract : Int → Int → Int → Nat)
    (color_scheme : Nat → Nat → Nat → Nat) (max_depth : Int) (data_array : Nat → Int)
    (m : Nat) (img : Nat → Nat) (h : 3 * m + 3 ≤ 2147483647) :
    (image_body extract color_scheme max_depth data_array
        ⟨((3 * m : Nat) : Int), (m : Int), img⟩).i = ((3 * (m + 1) : Nat) : Int) ∧
    (image_body extract color_scheme max_depth data_array
        ⟨((3 * m : Nat) : Int), (m : Int), img⟩).j = ((m + 1 : Nat) : Int) ∧
    ∀ x, (image_body extract color_scheme max_depth data_array
        ⟨((3 * m : Nat) : Int), (m : Int), img⟩).image x =
      if 3 * m ≤ x ∧ x < 3 * m + 3 then
        (if data_array m = max_depth then 0
         else color_scheme (extract (data_array m) 26 6 % 8)
           (extract (data_array m) 6 0) (x - 3 * m))
      else img x := by
  refine ⟨?_, ?_, ?_⟩
  · simp only [image_body]
    unfold wrap32
    push_cast
    omega
  · simp only [image_body]
    unfold wrap32
    push_cast
    omega
  · intro x
    simp only [image_body, Int.toNat_ofNat]
    exact foldl_update_range
      (fun k : Nat => (wrap32 (((3 * m : Nat) : Int) + (k : Int))).toNat)
      (fun k : Nat => if data_array m = max_depth then 0
        else color_scheme (extract (data_array m) 26 6 % 8)
          (extract (data_array m) 6 0) k)
      (3 * m) 3 img
      (by
        intro k hk
        show (wrap32 (((3 * m : Nat) : Int) + (k : Int))).toNat = 3 * m + k
        unfold wrap32
        push_cast
        omega) x

theorem image_loop_pixels (extract : Int → Int → Int → Nat)
    (color_scheme : Nat → Nat → Nat → Nat) (width height max_depth : Int)
    (data_array : Nat → Int) (n : Nat) (hn : width * height = (n : Int))
    (hmax : 3 * n ≤ 2147483647) :
    ∀ (fuel m : Nat) (img : Nat → Nat), m ≤ n → n ≤ m + fuel →
      (∀ p, p < m → ∀ k, k < 3 → img (3 * p + k) =
        if data_array p = max_depth then 0
        else color_scheme (extract (data_array p) 26 6 % 8)
          (extract (data_array p) 6 0) k) →
      ∃ st, image_loop extract color_scheme width height max_depth data_array fuel
          ⟨((3 * m : Nat) : Int), (m : Int), img⟩ = some st ∧
        ∀ p, p < n → ∀ k, k < 3 → st.image (3 * p + k) =
          if data_array p = max_depth then 0
          else color_scheme (extract (data_array p) 26 6 % 8)
            (extract (data_array p) 6 0) k := by
  have hbound : wrap64 (wrap64 (width * height) * 3) = ((3 * n : Nat) : Int) := by
    rw [hn]
    unfold wrap64
    push_cast
    omega
  intro fuel
  induction fuel with
  | zero =>
    intro m img hm hfuel himg
    have hmn : m = n := by omega
    subst hmn
    refine ⟨_, image_loop_exit _ _ _ _ _ _ _ _ ?_, himg⟩
    rw [hbound]
    exact lt_irrefl _
  | succ fuel ih =>
    intro m img hm hfuel himg
    by_cases hlt : m < n
    · have hcond : (((3 * m : Nat) : Int)) < wrap64 (wrap64 (width * height) * 3) := by
        rw [hbound]
        exact_mod_cast (by omega : 3 * m < 3 * n)
      simp only [image_loop, if_pos hcond]
      obtain ⟨hi, hj, himg1⟩ := image_body_apply extract color_scheme max_depth
        data_array m img (by omega)
      have hst : image_body extract color_scheme max_depth data_array
          ⟨((3 * m : Nat) : Int), (m : Int), img⟩ =
          ⟨((3 * (m + 1) : Nat) : Int), ((m + 1 : Nat) : Int),
            (image_body extract color_scheme max_depth data_array
              ⟨((3 * m : Nat) : Int), (m : Int), img⟩).image⟩ := by
        rw [← hi, ← hj]
      rw [hst]
      apply ih (m + 1) _ (by omega) (by omega)
      intro p hp k hk
      rw [himg1]
      by_cases hpm : p = m
      · subst hpm
        have hc : 3 * p ≤ 3 * p + k ∧ 3 * p + k < 3 * p + 3 := by omega
        rw [if_pos hc, Nat.add_sub_cancel_left]
      · have hc : ¬ (3 * m ≤ 3 * p + k ∧ 3 * p + k < 3 * m + 3) := by omega
        rw [if_neg hc]
        exact himg p (by omega) k hk
    · have hmn : m = n := by omega
      subst hmn
      refine ⟨_, image_loop_exit _ _ _ _ _ _ _ _ ?_, himg⟩
      rw [hbound]
      exact lt_irrefl _

/-- C8 (amended): image synthesis equals the reference definition. For a width
and a height such that `0 ≤ width * height` and `width * height * 3 ≤ INT_MAX`,
a maximum depth, a palette, an array of output words, and an `extract_bits`
(the parameter `extract`) that returns the bits 0 to 5 and the bits 6 to 25 of
a word, the pixel loop of `handle_get_image` ends, the pixel buffer has
`width * height * 3` bytes, and for every pixel index `i < width * height` the
bytes `3i .. 3i+2` are those of the reference definition for the word `i`:
(0,0,0) when the word is the maximum depth, the components of
`Palette[group mod 8].colorAt(transition)` otherwise. -/
theorem image_synthesis_is_reference (extract : Int → Int → Int → Nat)
    (color_scheme : Nat → Nat → Nat → Nat) (width height max_depth : Int)
    (data_array : Nat → Int) (junk : Nat → Nat) (fuel : Nat)
    (hnn : 0 ≤ width * height) (hmax : width * height * 3 ≤ INT_MAX)
    (hbits : ∀ w, extract w 6 0 = bit_field w 0 6 ∧ extract w 26 6 = bit_field w 6 26)
    (hfuel : width * height ≤ fuel) :
    ∃ img, handle_get_image_pixels extract color_scheme width height max_depth
        data_array junk fuel = some img ∧
      (img.size : Int) = width * height * 3 ∧
      ∀ i : Nat, (i : Int) < width * height → ∀ k, k < 3 →
        img.bytes (3 * i + k) = spec_pixel color_scheme max_depth (data_array i) k := by
  simp only [INT_MAX] at hmax
  have hsize : ((size_t (wrap64 (wrap64 (width * height) * 3)) : Nat) : Int) =
      width * height * 3 := by
    have hwrap : wrap64 (wrap64 (width * height) * 3) = width * height * 3 := by
      unfold wrap64
      omega
    rw [hwrap]
    have hx : 0 ≤ width * height * 3 := by omega
    generalize width * height * 3 = x at hmax hx ⊢
    unfold size_t
    rw [Int.emod_eq_of_lt hx (by omega), Int.toNat_of_nonneg hx]
  obtain ⟨n, hn⟩ := Int.eq_ofNat_of_zero_le hnn
  have hmax1 : 3 * n ≤ 2147483647 := by
    rw [hn] at hmax
    omega
  have hloop := image_loop_pixels extract color_scheme width height max_depth
    data_array n hn hmax1 fuel 0 junk (Nat.zero_le n)
    (by rw [hn] at hfuel; omega)
    (by intro p hp; omega)
  obtain ⟨st, hst, hpix⟩ := hloop
  refine ⟨⟨size_t (wrap64 (wrap64 (width * height) * 3)), st.image⟩, ?_, hsize, ?_⟩
  · simp only [handle_get_image_pixels]
    have h0 : (⟨0, 0, junk⟩ : ImageState) =
        ⟨((3 * 0 : Nat) : Int), ((0 : Nat) : Int), junk⟩ := rfl
    rw [h0, hst]
    rfl
  · intro i hi k hk
    have hin : i < n := by
      rw [hn] at hi
      exact_mod_cast hi
    show st.image (3 * i + k) = _
    rw [hpix i hin k hk, spec_pixel, (hbits (data_array i)).1, (hbits (data_array i)).2]

/-- Witness of C8 (amended): width 2, height 2, maximum depth 100 and the words
100, 5, 70, 6. The buffer has 12 bytes; pixel 0 is black, pixel 1 is the color
of transition 5 in group 0, pixel 2 the color of transition 6 in group 1,
pixel 3 the color of transition 6 in group 0. -/
theorem image_synthesis_is_reference_witness :
    (∃ img, handle_get_image_pixels extract_bits example_palette 2 2 100
        example_words (fun _ => 255) 4 = some img ∧
      (img.size : Int) = 2 * 2 * 3 ∧
      ∀ i : Nat, (i : Int) < 2 * 2 → ∀ k, k < 3 →
        img.bytes (3 * i + k) = spec_pixel example_palette 100 (example_words i) k) ∧
    (handle_get_image_pixels extract_bits example_palette 2 2 100
        example_words (fun _ => 255) 4).map
      (fun img => (img.size, (List.range 12).map img.bytes)) =
      some (12, [0, 0, 0,
        example_palette 0 5 0, example_palette 0 5 1, example_palette 0 5 2,
        example_palette 1 6 0, example_palette 1 6 1, example_palette 1 6 2,
        example_palette 0 6 0, example_palette 0 6 1, example_palette 0 6 2]) :=
  ⟨image_synthesis_is_reference extract_bits example_palette 2 2 100 example_words
      (fun _ => 255) 4 (by decide) (by decide) (fun _ => ⟨rfl, rfl⟩) (by decide),
    by decide⟩

/-! ## Properties of the status response and of the flag `initialized` -/

/-- C11 (the code at the failing input): kernel-init dispatched on a context
with status 0 that is already marked initialized. No branch writes the buffer
`response`: the status text that is sent is not defined. -/
theorem kernel_init_when_initialized_sends_unset_response :
    handle_command protocol_h device_ok protocol_h.INIT_KERNEL_N ⟨0, true, 2⟩
        "binary.xclbin" "kernel" 64 = ⟨⟨0, true, 2⟩, none, []⟩ ∧
    main_status_response protocol_h device_ok protocol_h.INIT_KERNEL_N ⟨0, true, 2⟩
        "binary.xclbin" "kernel" 64 = none ∧
    main_status_response protocol_h device_ok (get_command protocol_h "kernel-init".toList)
        ⟨0, true, 2⟩ "binary.xclbin" "kernel" 64 = none := by
  decide

/-- The response of `handle_command` is left unwritten in that case only:
kernel-init (where its label is not also the label of platform-init) on a
context with status 0 that is marked initialized. -/
theorem handle_command_response_unset_iff (P : Protocol) (dev : Device) (command : Int)
    (cl : cl_data_types) (xclbin kernel_name : String) (memory_size : Int) :
    (handle_command P dev command cl xclbin kernel_name memory_size).response = none ↔
      (command ≠ P.INIT_PLATFORM_N ∧ command = P.INIT_KERNEL_N ∧ cl.status = 0 ∧
        cl.initialized = true) := by
  simp only [handle_command]
  split_ifs <;> simp_all

/-- Every other pass through the `switch` of `main` sends a text that a branch
wrote: the status response is unwritten only for kernel-init on a context with
status 0 that is marked initialized. -/
theorem main_status_response_unset_iff (P : Protocol) (dev : Device) (command : Int)
    (cl : cl_data_types) (xclbin kernel_name : String) (memory_size : Int) :
    main_status_response P dev command cl xclbin kernel_name memory_size = none ↔
      (command ≠ P.WRITE_DATA_N ∧ command ≠ P.READ_DATA_N ∧ command ≠ P.GET_IMAGE_N ∧
        command ≠ P.INIT_PLATFORM_N ∧ command = P.INIT_KERNEL_N ∧ cl.status = 0 ∧
        cl.initialized = true) := by
  simp only [main_status_response]
  split_ifs with h1 h2 h3
  · simp [h1]
  · simp [h2]
  · simp [h3]
  · rw [handle_command_response_unset_iff]
    simp [h1, h2, h3]

/-- C14: the flag `initialized` in `handle_command`.
* The context returned is the one given, or the one a Device call returned, or,
  for a kernel-init on a context with status 0 and the flag clear whose Device
  call returned status 0 and in no other case, the context the Device returned
  with the flag set: `handle_command` itself sets the flag there only.
* So, with a Device that does not set the flag itself, a dispatch that turns
  the flag from clear to set is a kernel-init on a context with status 0 whose
  Device call returned status 0.
* Once the flag is set and the status is 0, platform-init and kernel-init make
  no Device call and return the context unchanged; platform-init answers
  "Error: Platform already initialized", kernel-init initializes nothing.
* Platform-init answers that rejection exactly when the flag is set, whatever
  the status: the flag set by kernel-init decides, not the state of the
  platform. -/
theorem initialized_flag_set_by_kernel_init_only (P : Protocol) (dev : Device)
    (command : Int) (cl : cl_data_types) (xclbin kernel_name : String) (memory_size : Int)
    (htag : P.INIT_KERNEL_N ≠ P.INIT_PLATFORM_N) :
    ((handle_command P dev command cl xclbin kernel_name memory_size).cl = cl ∨
      (handle_command P dev command cl xclbin kernel_name memory_size).cl =
        dev.initialize_platform () ∨
      (handle_command P dev command cl xclbin kernel_name memory_size).cl =
        dev.initialize_kernel cl xclbin kernel_name memory_size ∨
      (handle_command P dev command cl xclbin kernel_name memory_size).cl =
        dev.clean_kernel cl ∨
      (handle_command P dev command cl xclbin kernel_name memory_size).cl =
        dev.start_kernel cl ∨
      (command = P.INIT_KERNEL_N ∧ cl.status = 0 ∧ cl.initialized = false ∧
        (dev.initialize_kernel cl xclbin kernel_name memory_size).status = 0 ∧
        (handle_command P dev command cl xclbin kernel_name memory_size).cl =
          { dev.initialize_kernel cl xclbin kernel_name memory_size with
            initialized := true })) ∧
    ((handle_command P dev command cl xclbin kernel_name memory_size).cl.initialized = true →
      cl.initialized = false → (dev.initialize_platform ()).initialized = false →
      (dev.initialize_kernel cl xclbin kernel_name memory_size).initialized = false →
      (dev.clean_kernel cl).initialized = false → (dev.start_kernel cl).initialized = false →
      command = P.INIT_KERNEL_N ∧ cl.status = 0 ∧
        (dev.initialize_kernel cl xclbin kernel_name memory_size).status = 0) ∧
    (cl.initialized = true → cl.status = 0 →
      handle_command P dev P.INIT_PLATFORM_N cl xclbin kernel_name memory_size =
        ⟨cl, some "Error: Platform already initialized", []⟩ ∧
      (handle_command P dev P.INIT_KERNEL_N cl xclbin kernel_name memory_size).calls = [] ∧
      (handle_command P dev P.INIT_KERNEL_N cl xclbin kernel_name memory_size).cl = cl) ∧
    ((handle_command P dev P.INIT_PLATFORM_N cl xclbin kernel_name memory_size).response =
        some "Error: Platform already initialized" ↔ cl.initialized = true) := by
  refine ⟨?_, ?_, ?_, ?_⟩
  · simp only [handle_command]
    split_ifs <;> simp_all
  · simp only [handle_command]
    split_ifs <;> simp_all
  · intro hi hs
    simp [handle_command, htag, hi, hs]
  · by_cases hi : cl.initialized = true
    · simp [handle_command, hi]
    · have hf : cl.initialized = false := by simpa using hi
      by_cases hs : (dev.initialize_platform ()).status = 0 <;>
        simp [handle_command, hf, hs]

/-- Witness of C14: a kernel-init that succeeds sets the flag; on the context
it leaves, platform-init is rejected and kernel-init does nothing; on a context
whose platform is initialized but whose flag is clear, platform-init is not
rejected. -/
theorem initialized_flag_set_by_kernel_init_only_witness :
    protocol_h.INIT_KERNEL_N ≠ protocol_h.INIT_PLATFORM_N ∧
    (handle_command protocol_h device_ok protocol_h.INIT_KERNEL_N ⟨0, false, 1⟩
        "binary.xclbin" "kernel" 64).cl = ⟨0, true, 2⟩ ∧
    handle_command protocol_h device_ok protocol_h.INIT_PLATFORM_N ⟨0, true, 2⟩
        "binary.xclbin" "kernel" 64 =
      ⟨⟨0, true, 2⟩, some "Error: Platform already initialized", []⟩ ∧
    (handle_command protocol_h device_ok protocol_h.INIT_KERNEL_N ⟨0, true, 2⟩
        "binary.xclbin" "kernel" 64).calls = [] ∧
    ¬ ((handle_command protocol_h device_ok protocol_h.INIT_PLATFORM_N ⟨0, false, 1⟩
        "binary.xclbin" "kernel" 64).response = some "Error: Platform already initialized") :=
  ⟨by decide, by decide,
   ((initialized_flag_set_by_kernel_init_only protocol_h device_ok protocol_h.INIT_PLATFORM_N
      ⟨0, true, 2⟩ "binary.xclbin" "kernel" 64 (by decide)).2.2.1 rfl rfl).1,
   ((initialized_flag_set_by_kernel_init_only protocol_h device_ok protocol_h.INIT_PLATFORM_N
      ⟨0, true, 2⟩ "binary.xclbin" "kernel" 64 (by decide)).2.2.1 rfl rfl).2.1,
   fun h => Bool.noConfusion
     ((initialized_flag_set_by_kernel_init_only protocol_h device_ok
        protocol_h.INIT_PLATFORM_N ⟨0, false, 1⟩ "binary.xclbin" "kernel" 64
        (by decide)).2.2.2.1 h)⟩

/-! ## Properties of the download -/

/-- C12 (as stated, refuted): a payload of 10 bytes on a transport that accepts
at most 4 bytes in one `send`. After the acknowledgement, the length and the
second acknowledgement, `handle_read_data` makes one `send` of the payload, of
which 4 bytes are accepted, and returns 0 without sending the 6 others. -/
theorem download_short_send_not_retried :
    (handle_read_data (Peer.short_transport Nat 4) ⟨[], [], 2⟩ (fun i => i + 10) 10).trace =
      [Event.recv_ack 8, Event.send (Message.int 10) 4, Event.recv_ack 8,
        Event.send (Message.payload [10, 11, 12, 13, 14, 15, 16, 17, 18, 19]) 4] ∧
    (handle_read_data (Peer.short_transport Nat 4) ⟨[], [], 2⟩ (fun i => i + 10) 10).ret =
      some 0 ∧
    payload_accepted
      (handle_read_data (Peer.short_transport Nat 4) ⟨[], [], 2⟩ (fun i => i + 10) 10).trace
      = 4 := by
  decide

theorem io_events_append {α : Type} (a b : List (Event α)) :
    io_events (a ++ b) = io_events a ++ io_events b := by
  induction a with
  | nil => rfl
  | cons e a ih => cases e <;> simp [io_events, ih]

theorem payload_accepted_append {α : Type} (a b : List (Event α)) :
    payload_accepted (a ++ b) = payload_accepted a + payload_accepted b := by
  induction a with
  | nil => simp [payload_accepted]
  | cons e a ih =>
    cases e with
    | send m ret => cases m <;> simp [payload_accepted, ih, add_assoc]
    | _ => simp [payload_accepted, ih]

/-- C12 (amended): on every transport, `handle_read_data` makes, in this order,
one receive of an acknowledgement, one send of the length, one receive of a
second acknowledgement and exactly one send, which hands the payload to the
transport: the cells of `data` up to the length `data_size` converted to
`size_t`, that is all the `data_size` payload bytes for a declared length that
is not negative. It does not send again: the number of payload bytes accepted
is what that one send accepted, and for a declared length that is not negative
it is `data_size` on a transport whose send accepts every message whole. -/
theorem download_sends_payload_once {σ α : Type} (T : Transport σ α) (socket : σ)
    (data : Nat → α) (data_size : Int) :
    (∃ r1 k1 r2 k2,
      io_events (handle_read_data T socket data data_size).trace =
        [Event.recv_ack r1, Event.send (Message.int data_size) k1, Event.recv_ack r2,
          Event.send (Message.payload ((List.range (size_t data_size)).map data)) k2] ∧
      payload_accepted (handle_read_data T socket data data_size).trace = max k2 0) ∧
    (0 ≤ data_size → data_size ≤ INT_MAX →
      size_t data_size = data_size.toNat ∧
      ((∀ s m, (T.send s m).1 = m.size) →
        payload_accepted (handle_read_data T socket data data_size).trace = data_size)) := by
  have key : io_events (handle_read_data T socket data data_size).trace =
        [Event.recv_ack (T.recv_ack socket).1,
          Event.send (Message.int data_size)
            (T.send (T.recv_ack socket).2 (Message.int data_size)).1,
          Event.recv_ack
            (T.recv_ack (T.send (T.recv_ack socket).2 (Message.int data_size)).2).1,
          Event.send (Message.payload ((List.range (size_t data_size)).map data))
            (T.send (T.recv_ack (T.send (T.recv_ack socket).2 (Message.int data_size)).2).2
              (Message.payload ((List.range (size_t data_size)).map data))).1] ∧
      payload_accepted (handle_read_data T socket data data_size).trace =
        max (T.send (T.recv_ack (T.send (T.recv_ack socket).2 (Message.int data_size)).2).2
              (Message.payload ((List.range (size_t data_size)).map data))).1 0 := by
    simp only [handle_read_data]
    split_ifs <;>
      simp [io_events_append, payload_accepted_append, io_events, payload_accepted]
  refine ⟨⟨_, _, _, _, key.1, key.2⟩, ?_⟩
  intro h0 hmax
  simp only [INT_MAX] at hmax
  have hsz : size_t data_size = data_size.toNat := by
    unfold size_t
    omega
  refine ⟨hsz, ?_⟩
  intro hall
  rw [key.2, hall, hsz]
  simp only [Message.size, List.length_map, List.length_range]
  omega

/-- Witness of C12 (amended): on the transport that accepts every message
whole, the 10 payload bytes are accepted in the one send. -/
theorem download_sends_payload_once_witness :
    (0 : Int) ≤ 10 ∧ (10 : Int) ≤ INT_MAX ∧
    (∀ s m, ((Peer.transport Nat).send s m).1 = m.size) ∧
    payload_accepted
      (handle_read_data (Peer.transport Nat) ⟨[], [], 2⟩ (fun i => i + 10) 10).trace = 10 :=
  ⟨by decide, by decide, fun _ _ => rfl,
   ((download_sends_payload_once (Peer.transport Nat) ⟨[], [], 2⟩ (fun i => i + 10) 10).2
     (by decide) (by decide)).2 (fun _ _ => rfl)⟩

/-- A negative length is handed to `send` as a length near 2^64: for
`data_size = -1` the one `send` is asked for 18446744073709551615 bytes. -/
theorem size_t_of_minus_one : size_t (-1) = 18446744073709551615 := by
  decide

/-! ## Properties of `HW_Kernel::initialize_kernel` -/

/-- C13 (the code at the failing input): the program build fails and every
other step succeeds. The failure is printed and `status` is set to
`EXIT_FAILURE`, but the function goes on and its last statement sets `status`
to 0: it returns status 0 although a step failed. -/
theorem initialize_kernel_build_failure_returns_zero :
    steps_build_fails.build_err ≠ CL_SUCCESS ∧
    (HW_Kernel.initialize_kernel ⟨1, []⟩ steps_build_fails "binary.xclbin" "kernel" 64).status = 0 ∧
    (HW_Kernel.initialize_kernel ⟨1, []⟩ steps_build_fails "binary.xclbin" "kernel" 64).out =
      ["INFO: loading xclbin binary.xclbin", "Error: Failed to build program executable!",
        "build log", "Test failed"] := by
  decide

/-- The status that `initialize_kernel` returns is 0 or `EXIT_FAILURE`, and it is
0 exactly when the file was loaded, the program and the kernel were created and
the two buffer handles are not null: the outcome of the build (and the error
codes of the buffer allocations) have no part in it. -/
theorem initialize_kernel_status_zero_iff (self : HW_Kernel) (steps : KernelSteps)
    (xclbin kernel_name : String) (memory_size : Int) :
    ((self.initialize_kernel steps xclbin kernel_name memory_size).status = 0 ∨
      (self.initialize_kernel steps xclbin kernel_name memory_size).status = EXIT_FAILURE) ∧
    ((self.initialize_kernel steps xclbin kernel_name memory_size).status = 0 ↔
      (0 ≤ load_file_to_memory steps.file ∧
        (steps.program = true ∧ steps.program_err = CL_SUCCESS) ∧
        (steps.kernel = true ∧ steps.kernel_err = CL_SUCCESS) ∧
        steps.read_mem = true ∧ steps.write_mem = true)) := by
  simp only [HW_Kernel.initialize_kernel, HW_Kernel.perror, EXIT_FAILURE, CL_SUCCESS]
  split_ifs <;> simp_all <;> intros <;> simp_all

/-- When every step succeeds the status returned is 0, and a failure of any step
other than the build (with a null handle for a failed buffer allocation) gives
the status `EXIT_FAILURE`. -/
theorem initialize_kernel_reports_other_failures (self : HW_Kernel) (steps : KernelSteps)
    (xclbin kernel_name : String) (memory_size : Int) :
    (steps.all_succeeded → (self.initialize_kernel steps xclbin kernel_name memory_size).status = 0) ∧
    ((load_file_to_memory steps.file < 0 ∨ steps.program = false ∨
        steps.program_err ≠ CL_SUCCESS ∨ steps.kernel = false ∨
        steps.kernel_err ≠ CL_SUCCESS ∨ steps.read_mem = false ∨ steps.write_mem = false) →
      (self.initialize_kernel steps xclbin kernel_name memory_size).status = EXIT_FAILURE) := by
  have h := initialize_kernel_status_zero_iff self steps xclbin kernel_name memory_size
  refine ⟨?_, ?_⟩
  · intro hall
    obtain ⟨h1, h2, _, h4, h5, h6⟩ := hall
    exact h.2.2 ⟨h1, h2, h4, h5.1, h6.1⟩
  · intro hfail
    rcases h.1 with h0 | h1
    · exfalso
      obtain ⟨a1, ⟨a2, a3⟩, ⟨a4, a5⟩, a6, a7⟩ := h.2.1 h0
      rcases hfail with f | f | f | f | f | f | f
      · omega
      · rw [a2] at f; exact Bool.noConfusion f
      · exact f a3
      · rw [a4] at f; exact Bool.noConfusion f
      · exact f a5
      · rw [a6] at f; exact Bool.noConfusion f
      · rw [a7] at f; exact Bool.noConfusion f
    · exact h1

/-! ## The loops beyond the range of `int` -/

/-- When `width * height * 3`, as the loop computes it, exceeds `INT_MAX`, the
pixel loop never ends: its counter `i` is an `int`. -/
theorem image_loop_never_ends (extract : Int → Int → Int → Nat)
    (color_scheme : Nat → Nat → Nat → Nat) (width height max_depth : Int)
    (data_array : Nat → Int) (hbig : 2147483647 < wrap64 (wrap64 (width * height) * 3)) :
    ∀ (fuel : Nat) (st : ImageState), st.i ≤ 2147483647 →
      image_loop extract color_scheme width height max_depth data_array fuel st = none := by
  intro fuel
  induction fuel with
  | zero =>
    intro st hle
    have hlt : st.i < wrap64 (wrap64 (width * height) * 3) := by omega
    simp [image_loop, hlt]
  | succ fuel ih =>
    intro st hle
    have hlt : st.i < wrap64 (wrap64 (width * height) * 3) := by omega
    simp only [image_loop, if_pos hlt]
    apply ih
    show wrap32 (st.i + 3) ≤ 2147483647
    unfold wrap32
    omega

/-- C8 (as stated, refuted).
* Width and height 26755: `width * height * 3 = 2147490075` exceeds `INT_MAX`,
  the `int` counter of the pixel loop overflows before it reaches that bound and
  the loop does not end, whatever the number of iterations allowed: no pixel
  buffer is produced.
* Width -1 and height 5: `width * height * 3 = -15` is given to `malloc` as a
  `size_t`, the buffer asked for has 18446744073709551601 bytes, not
  `width * height * 3`. -/
theorem image_synthesis_fails_out_of_range :
    (¬ ∃ fuel img, handle_get_image_pixels extract_bits example_palette 26755 26755 100
        (fun _ => 5) (fun _ => 0) fuel = some img) ∧
    (handle_get_image_pixels extract_bits example_palette (-1) 5 100
        (fun _ => 5) (fun _ => 0) 0).map (fun img => img.size) =
      some 18446744073709551601 ∧
    ((18446744073709551601 : Nat) : Int) ≠ (-1) * 5 * 3 := by
  refine ⟨?_, by decide, by decide⟩
  rintro ⟨fuel, img, h⟩
  simp only [handle_get_image_pixels] at h
  rw [image_loop_never_ends _ _ _ _ _ _ (by decide) fuel _ (by decide)] at h
  exact Option.noConfusion h

end ServerMain
